import Mathlib

/-!
Shallow embedding of the SoJenAI demo dashboard client (dashboard.py).

The dashboard is a thin presentation layer: it health-checks a backend,
submits text to /v1/infer, renders the returned scores, and offers a
per-result /v1/mitigate rewrite with optional voice synthesis.  The
definitions below translate the behaviourally relevant fragments of
dashboard.py into pure Lean functions: Python dict access becomes
association-list lookup, Python truthiness of strings becomes an explicit
non-emptiness test, missing JSON keys become Option, and the Streamlit
rerun-with-session-state model becomes explicit state passing.
-/

set_option autoImplicit false

namespace SojenDashboard

/-- Association-list lookup modelling Python `dict.get(k)`: the first pair
whose key equals `k` wins (Python dicts have unique keys, so this agrees
with dict lookup on any dict built by the code). -/
def dictGet? {κ α : Type} [DecidableEq κ] : List (κ × α) → κ → Option α
  | [], _ => none
  | p :: rest, k => if p.1 = k then some p.2 else dictGet? rest k

/-- Python `dict.get(k, default)`. -/
def dictGetD {κ α : Type} [DecidableEq κ] (d : List (κ × α)) (k : κ) (v : α) : α :=
  (dictGet? d k).getD v

/-- Python `list(dict.keys())` (insertion order). -/
def dictKeys {κ α : Type} (d : List (κ × α)) : List κ :=
  d.map Prod.fst

/-- Python truthiness of a string: truthy iff non-empty. -/
def strTruthy (s : String) : Bool :=
  s ≠ ""

/-- Python truthiness of a `str | None` value: `None` and `""` are falsy. -/
def optStrTruthy : Option String → Bool
  | none => false
  | some s => strTruthy s

/-- Python `a or b` for `a : str | None`, `b : str | None` (used for
`perf_device = st.session_state.device or st.session_state.backend_device`,
dashboard.py line 217). -/
def pyOrOpt (a b : Option String) : Option String :=
  match a with
  | some s => if strTruthy s then some s else b
  | none => b

/-- Python `a or b` for `a : str | None`, `b : str` (used for
`spoken_text = rewritten or advisory`, dashboard.py line 539). -/
def pyOrStr (a : Option String) (b : String) : String :=
  match a with
  | some s => if strTruthy s then s else b
  | none => b

/-- Python `str.capitalize()` restricted to ASCII content: first character
upper-cased, the rest lower-cased (dashboard.py lines 395, 468). -/
def pyCapitalize (s : String) : String :=
  (s.take 1).toUpper ++ (s.drop 1).toLower

/-! ## Analyze input handling (dashboard.py lines 316-345) -/

/-- Python `str.strip()` with no argument: remove leading and trailing
whitespace. -/
def pyStrip (s : String) : String :=
  String.mk
    (((s.data.dropWhile Char.isWhitespace).reverse.dropWhile
        Char.isWhitespace).reverse)

/-- `texts: List[str] = [text_single] if text_single.strip() else []`
(dashboard.py line 324). -/
def analyzeTexts (textSingle : String) : List String :=
  if strTruthy (pyStrip textSingle) then [textSingle] else []

/-- What pressing the Analyze button does before any network traffic:
either show the warning, or issue exactly one POST to /v1/infer with the
given list of texts (dashboard.py lines 333-339). -/
inductive AnalyzeAction where
  | warn : AnalyzeAction
  | callInfer : List String → AnalyzeAction
  deriving DecidableEq

/-- The `run_button` handler dispatch: `if not texts: st.warning(...)`,
else `call_infer(texts)` (dashboard.py lines 333-339). -/
def analyzePressed (textSingle : String) : AnalyzeAction :=
  if (analyzeTexts textSingle).isEmpty then AnalyzeAction.warn
  else AnalyzeAction.callInfer (analyzeTexts textSingle)

/-! ## Session state and the /v1/infer response (dashboard.py lines 93-98,
339-345) -/

/-- One element of the response `results` list, with the keys the renderer
reads (`item.get(...)`, dashboard.py lines 360-368).  A missing key is
`none`; score values are modelled as rationals since the code only moves
them around and defaults them to `0.0`. -/
structure InferItem where
  text : Option String := none
  scores : Option (List (String × Rat)) := none
  scoresOrdered : Option (List (String × Rat)) := none
  topLabel : Option String := none
  severity : Option String := none
  deriving DecidableEq

/-- The /v1/infer response body as read by the handler
(`infer_res.get(...)`, dashboard.py lines 343-345). -/
structure InferResponse where
  device : Option String := none
  typeOrder : Option (List String) := none
  results : Option (List InferItem) := none
  deriving DecidableEq

/-- The Streamlit session state fields initialised at dashboard.py
lines 93-98. -/
structure SessionState where
  device : Option String := none
  typeOrder : List String := []
  inferResults : Option (List InferItem) := none
  backendDevice : Option String := none
  deriving DecidableEq

/-- The `run_button` success/failure continuation (dashboard.py lines
337-345): on an exception an inline error is shown and session state is
left alone; on success the three fields are overwritten from the response
with permissive defaults.  Returns the new state and the error message
shown, if any. -/
def runAnalyze (st : SessionState) (res : Except String InferResponse) :
    SessionState × Option String :=
  match res with
  | Except.error e => (st, some ("Error calling /v1/infer: " ++ e))
  | Except.ok r =>
      ({ st with
          device := some (r.device.getD "unknown")
          typeOrder := r.typeOrder.getD []
          inferResults := some (r.results.getD []) },
        none)

/-! ## Results rendering loop (dashboard.py lines 354-420) -/

/-- One iteration of the results loop, restricted to the score table: given
the loop-carried `type_order` value, produce the updated `type_order`
(dashboard.py lines 371-372) and the rendered table rows, `none` when the
`if type_order:` guard at line 401 fails and the info message is shown
instead.  Mirrors lines 361-362 (`or {}` defaults), 371-375 (fallback
ordering and rebuilt `scores_ordered`) and 402-407 (row construction with
`scores_ordered.get(cat, 0.0)`). -/
def renderItemRows (typeOrder0 : List String) (item : InferItem) :
    List String × Option (List (String × Rat)) :=
  let rawScores := item.scores.getD []
  let scoresOrdered0 := item.scoresOrdered.getD []
  let typeOrder := if typeOrder0.isEmpty then dictKeys rawScores else typeOrder0
  let scoresOrdered :=
    if scoresOrdered0.isEmpty && !typeOrder.isEmpty then
      typeOrder.map (fun cat => (cat, dictGetD rawScores cat 0))
    else scoresOrdered0
  let rowsOpt :=
    if typeOrder.isEmpty then none
    else some (typeOrder.map (fun cat => (cat, dictGetD scoresOrdered cat 0)))
  (typeOrder, rowsOpt)

/-- The `for idx, item in enumerate(results)` loop (dashboard.py line 359),
threading the loop-local `type_order` variable from one iteration to the
next and collecting each rendered score table. -/
def renderLoop : List String → List InferItem → List (Option (List (String × Rat)))
  | _, [] => []
  | typeOrder, item :: rest =>
      let step := renderItemRows typeOrder item
      step.2 :: renderLoop step.1 rest

/-- The implicit/explicit style indicator: `implicit_map.get(implicit_flag,
"unknown")` over `{0: "neutral / none", 1: "explicit", 2: "implicit"}`
(dashboard.py lines 378-384). -/
def implicitLabel (flag : Int) : String :=
  dictGetD [((0 : Int), "neutral / none"), (1, "explicit"), (2, "implicit")]
    flag "unknown"

/-! ## Mitigate rendering (dashboard.py lines 451-574) -/

/-- The /v1/mitigate response body as read by the Run Rewrite handler
(`mit.get(...)`, dashboard.py lines 460-464).  `rewritten = none` covers
both a missing key and an explicit JSON null. -/
structure MitigateResponse where
  mode : Option String := none
  severity : Option String := none
  advisory : Option String := none
  rewritten : Option String := none
  deriving DecidableEq

/-- The severity badge colour dict with its `.get(m_severity, "#d9d9d9")`
default (dashboard.py lines 469-474). -/
def badge_color (severity : String) : String :=
  dictGetD
    [("high", "#ff4d4f"), ("medium", "#faad14"),
      ("low", "#52c41a"), ("none", "#d9d9d9")]
    severity "#d9d9d9"

/-- Which mode explanation paragraph is rendered (dashboard.py lines
554-574): the `elif` chain over `mode` with a final `else` default. -/
inductive ModeExplanation where
  | advisoryMode : ModeExplanation
  | rewriteMode : ModeExplanation
  | noRewriteProposed : ModeExplanation
  deriving DecidableEq

/-- `if mode == "advisory": ... elif mode == "rewrite": ... else: ...`
(dashboard.py lines 554-574); the else branch renders the
"not proposed a rewrite" message. -/
def modeExplanation (mode : String) : ModeExplanation :=
  if mode = "advisory" then ModeExplanation.advisoryMode
  else if mode = "rewrite" then ModeExplanation.rewriteMode
  else ModeExplanation.noRewriteProposed

/-- The rendered outcome of a successful mitigate call, restricted to the
behaviourally specified pieces: badge colour and label, whether the real
advisory text (vs. the fallback note) is shown, the rewritten code block
content when one is presented, the text handed to voice synthesis when a
synthesis call is made, and the mode explanation paragraph. -/
structure MitigateRender where
  badgeColor : String
  sevLabel : String
  advisoryShown : Bool
  rewrittenBlock : Option String
  synthesis : Option String
  explanation : ModeExplanation
  deriving DecidableEq

/-- The success branch of the Run Rewrite handler (dashboard.py lines
459-574): permissive `.get` defaults at lines 460-463 (`mode` defaults to
"rewrite", `severity` to the item severity, `advisory` to ""), the badge
colour at 469-474, the `if advisory:` display at 512-517, the
`if rewritten:` code block at 520-534, `spoken_text = rewritten or
advisory` with the `if spoken_text:` synthesis guard at 539-550, and the
mode explanation chain at 554-574. -/
def renderMitigate (itemSeverity : String) (mit : MitigateResponse) :
    MitigateRender :=
  let mode := mit.mode.getD "rewrite"
  let mSeverity := mit.severity.getD itemSeverity
  let advisory := mit.advisory.getD ""
  let rewritten := mit.rewritten
  let spoken := pyOrStr rewritten advisory
  { badgeColor := badge_color mSeverity
    sevLabel := pyCapitalize mSeverity
    advisoryShown := strTruthy advisory
    rewrittenBlock := if optStrTruthy rewritten then rewritten else none
    synthesis := if strTruthy spoken then some spoken else none
    explanation := modeExplanation mode }

/-! ## Sidebar health check and performance indicator (dashboard.py lines
134-167, 216-256) -/

/-- The /health response body (`health.get("device", "n/a")`,
dashboard.py line 139). -/
structure HealthResponse where
  device : Option String := none
  deriving DecidableEq

/-- What the sidebar backend-status section displays: success vs. error
message, and the device badge text when one is rendered. -/
structure SidebarRender where
  statusOk : Bool
  deviceBadge : Option String
  deriving DecidableEq

/-- The sidebar health-check block (dashboard.py lines 134-167): on
success `backend_device` is stored in session state and the GPU/CPU badge
is rendered; on an exception an error message is shown, session state is
untouched, and `health is None` so no badge is rendered. -/
def sidebarHealth (st : SessionState) (res : Except String HealthResponse) :
    SessionState × SidebarRender :=
  match res with
  | Except.error _ => (st, { statusOk := false, deviceBadge := none })
  | Except.ok h =>
      let device := h.device.getD "n/a"
      ({ st with backendDevice := some device },
        { statusOk := true
          deviceBadge :=
            some (if device = "cuda" then "GPU Acceleration" else "CPU Mode") })

/-- The performance indicator states (dashboard.py lines 216-256):
a labelled, coloured mode box, or the gray "Performance Mode: Unknown"
box. -/
inductive PerfIndicator where
  | deviceMode : String → String → PerfIndicator
  | unknown : PerfIndicator
  deriving DecidableEq

/-- `perf_device = st.session_state.device or st.session_state.backend_device`
followed by `if perf_device:` (dashboard.py lines 217-256). -/
def perfIndicator (device backendDevice : Option String) : PerfIndicator :=
  let perfDevice := pyOrOpt device backendDevice
  if optStrTruthy perfDevice then
    if perfDevice = some "cuda" then
      PerfIndicator.deviceMode "Ultra-fast GPU Mode" "#52c41a"
    else
      PerfIndicator.deviceMode "Standard CPU Mode" "#faad14"
  else PerfIndicator.unknown

/-- A page render pass for the parts of the script relevant to backend
health: the sidebar block runs first (possibly updating session state),
then the performance indicator reads `st.session_state.device` and
`st.session_state.backend_device`; the input/Analyze section is rendered
unconditionally (nothing in dashboard.py guards it on health). -/
structure PageRender where
  sidebar : SidebarRender
  perf : PerfIndicator
  analyzeAvailable : Bool
  deriving DecidableEq

/-- One top-to-bottom script run given the current session state and the
outcome of the /health call. -/
def renderPage (st : SessionState) (healthRes : Except String HealthResponse) :
    SessionState × PageRender :=
  let step := sidebarHealth st healthRes
  (step.1,
    { sidebar := step.2
      perf := perfIndicator step.1.device step.1.backendDevice
      analyzeAvailable := true })

/-! ## Helper lemmas -/

/-- Looking up a key absent from a dict yields `none`. -/
theorem dictGet?_eq_none_of_not_mem {κ α : Type} [DecidableEq κ] :
    ∀ (d : List (κ × α)) (k : κ), k ∉ dictKeys d → dictGet? d k = none := by
  intro d k h
  induction d with
  | nil => rfl
  | cons p rest ih =>
      simp only [dictKeys, List.map_cons, List.mem_cons, not_or] at h
      simp only [dictGet?, if_neg (Ne.symm h.1)]
      exact ih (by simpa [dictKeys] using h.2)

/-- Looking up a key of a comprehension-built dict returns the comprehension
body at that key. -/
theorem dictGetD_map_self {α : Type} (l : List String) (k : String)
    (f : String → α) (v : α) (h : k ∈ l) :
    dictGetD (l.map fun c => (c, f c)) k v = f k := by
  induction l with
  | nil => cases h
  | cons a rest ih =>
      by_cases hak : a = k
      · subst hak
        simp [dictGetD, dictGet?]
      · rcases List.mem_cons.mp h with h1 | h2
        · exact absurd h1.symm hak
        · simp only [List.map_cons, dictGetD, dictGet?, if_neg hak]
          exact ih h2

/-- A non-empty carried ordering passes through `renderItemRows` unchanged. -/
theorem renderItemRows_fst (ts : List String) (item : InferItem)
    (h : ts ≠ []) : (renderItemRows ts item).1 = ts := by
  cases ts with
  | nil => exact absurd rfl h
  | cons a l => rfl

/-- Shape of the rendered rows for a non-empty carried ordering. -/
theorem renderItemRows_snd_cons (a : String) (l : List String)
    (item : InferItem) :
    (renderItemRows (a :: l) item).2 =
      some ((a :: l).map fun cat =>
        (cat,
          dictGetD
            (if (item.scoresOrdered.getD []).isEmpty then
              (a :: l).map fun c => (c, dictGetD (item.scores.getD []) c 0)
            else item.scoresOrdered.getD [])
            cat 0)) := by
  simp [renderItemRows]

/-- Shape of `renderItemRows` when the carried ordering is empty. -/
theorem renderItemRows_nil (item : InferItem) :
    (renderItemRows [] item).2 =
      if (dictKeys (item.scores.getD [])).isEmpty then none
      else
        some ((dictKeys (item.scores.getD [])).map fun cat =>
          (cat,
            dictGetD
              (if (item.scoresOrdered.getD []).isEmpty &&
                  !(dictKeys (item.scores.getD [])).isEmpty then
                (dictKeys (item.scores.getD [])).map fun c =>
                  (c, dictGetD (item.scores.getD []) c 0)
              else item.scoresOrdered.getD [])
              cat 0)) :=
  rfl

/-- The performance indicator is the Unknown state exactly when both
stored devices are falsy (unset or the empty string). -/
theorem perfIndicator_eq_unknown_iff (x y : Option String) :
    perfIndicator x y = PerfIndicator.unknown ↔
      optStrTruthy x = false ∧ optStrTruthy y = false := by
  unfold perfIndicator
  rcases x with _ | d
  · rcases y with _ | b
    · simp [pyOrOpt, optStrTruthy]
    · by_cases hb : b = ""
      · subst hb
        simp [pyOrOpt, optStrTruthy, strTruthy]
      · by_cases hbc : b = "cuda" <;>
          simp [pyOrOpt, optStrTruthy, strTruthy, hb, hbc]
  · by_cases hd : d = ""
    · subst hd
      rcases y with _ | b
      · simp [pyOrOpt, optStrTruthy, strTruthy]
      · by_cases hb : b = ""
        · subst hb
          simp [pyOrOpt, optStrTruthy, strTruthy]
        · by_cases hbc : b = "cuda" <;>
            simp [pyOrOpt, optStrTruthy, strTruthy, hb, hbc]
    · by_cases hdc : d = "cuda" <;>
        simp [pyOrOpt, optStrTruthy, strTruthy, hd, hdc]

/-! ## Claim theorems -/

/-- C1: pressing Analyze with input that is empty or whitespace-only shows
the warning and makes no /v1/infer call; with input that is non-empty after
trimming it calls /v1/infer with exactly the single-element list containing
that (untrimmed) input. -/
theorem C1_analyze_dispatch (s : String) :
    (pyStrip s = "" → analyzePressed s = AnalyzeAction.warn) ∧
    (pyStrip s ≠ "" → analyzePressed s = AnalyzeAction.callInfer [s]) := by
  constructor
  · intro h
    simp [analyzePressed, analyzeTexts, strTruthy, h]
  · intro h
    simp [analyzePressed, analyzeTexts, strTruthy, h]

/-- Witness for C1 at a whitespace-only input and at the default demo
input. -/
theorem C1_analyze_dispatch_witness :
    analyzePressed "   " = AnalyzeAction.warn ∧
    analyzePressed "Women are bad drivers." =
      AnalyzeAction.callInfer ["Women are bad drivers."] :=
  ⟨(C1_analyze_dispatch "   ").1 (by decide),
    (C1_analyze_dispatch "Women are bad drivers.").2 (by decide)⟩

/-- C2: voice synthesis is invoked iff the rewritten text is non-empty or
(the rewritten text is empty/absent and the advisory text is non-empty);
the synthesized text is the rewritten text when non-empty, otherwise the
advisory text; when both are empty no synthesis call is made. -/
theorem C2_synthesis_policy (sev : String) (mit : MitigateResponse) :
    (renderMitigate sev mit).synthesis.isSome =
      (optStrTruthy mit.rewritten || strTruthy (mit.advisory.getD "")) ∧
    (renderMitigate sev mit).synthesis =
      (if optStrTruthy mit.rewritten then mit.rewritten
        else if strTruthy (mit.advisory.getD "") then some (mit.advisory.getD "")
        else none) := by
  obtain ⟨mo, sv, adv, rwr⟩ := mit
  rcases rwr with _ | r
  · rcases adv with _ | a
    · simp [renderMitigate, pyOrStr, optStrTruthy, strTruthy]
    · by_cases ha : a = "" <;>
        simp [renderMitigate, pyOrStr, optStrTruthy, strTruthy, ha]
  · by_cases hr : r = ""
    · subst hr
      rcases adv with _ | a
      · simp [renderMitigate, pyOrStr, optStrTruthy, strTruthy]
      · by_cases ha : a = "" <;>
          simp [renderMitigate, pyOrStr, optStrTruthy, strTruthy, ha]
    · simp [renderMitigate, pyOrStr, optStrTruthy, strTruthy, hr]

/-- C4: the Analyze handler is atomic on session state: on success the
stored device, type_order and results are functions of the response alone
(full replacement, no merging, backend_device untouched) and no error is
shown; on failure the whole session state is unchanged and the inline
error message is shown. -/
theorem C4_analyze_atomic (st : SessionState) (r : InferResponse)
    (e : String) :
    ((runAnalyze st (Except.ok r)).1.device = some (r.device.getD "unknown") ∧
      (runAnalyze st (Except.ok r)).1.typeOrder = r.typeOrder.getD [] ∧
      (runAnalyze st (Except.ok r)).1.inferResults = some (r.results.getD []) ∧
      (runAnalyze st (Except.ok r)).1.backendDevice = st.backendDevice ∧
      (runAnalyze st (Except.ok r)).2 = none) ∧
    ((runAnalyze st (Except.error e)).1 = st ∧
      (runAnalyze st (Except.error e)).2 =
        some ("Error calling /v1/infer: " ++ e)) :=
  ⟨⟨rfl, rfl, rfl, rfl, rfl⟩, rfl, rfl⟩

/-- C9: the severity badge colour is a pure function of the severity
string: high maps to red, medium to amber, low to green, and none or any
other value to gray. -/
theorem C9_badge_color_pure (s : String) :
    badge_color s =
      if s = "high" then "#ff4d4f"
      else if s = "medium" then "#faad14"
      else if s = "low" then "#52c41a"
      else "#d9d9d9" := by
  by_cases h1 : s = "high"
  · subst h1; decide
  · by_cases h2 : s = "medium"
    · subst h2; decide
    · by_cases h3 : s = "low"
      · subst h3; decide
      · simp [badge_color, dictGetD, dictGet?, h1, h2, h3,
          Ne.symm h1, Ne.symm h2, Ne.symm h3,
          apply_ite (fun o : Option String => o.getD "#d9d9d9")]

/-- C7: values outside the enumerated sets never break rendering: an
unrecognized implicit/explicit flag renders as "unknown", an unrecognized
severity string gets the default gray badge colour, and an unrecognized
mode falls into the default explanation branch (all three renderers are
total Lean functions, so rendering cannot fail). -/
theorem C7_unrecognized_values_default :
    (∀ flag : Int, flag ≠ 0 → flag ≠ 1 → flag ≠ 2 →
      implicitLabel flag = "unknown") ∧
    (∀ s : String, s ≠ "high" → s ≠ "medium" → s ≠ "low" → s ≠ "none" →
      badge_color s = "#d9d9d9") ∧
    (∀ m : String, m ≠ "advisory" → m ≠ "rewrite" →
      modeExplanation m = ModeExplanation.noRewriteProposed) := by
  refine ⟨?_, ?_, ?_⟩
  · intro flag h0 h1 h2
    simp [implicitLabel, dictGetD, dictGet?, Ne.symm h0, Ne.symm h1, Ne.symm h2]
  · intro s h1 h2 h3 h4
    simp [badge_color, dictGetD, dictGet?,
      Ne.symm h1, Ne.symm h2, Ne.symm h3, Ne.symm h4]
  · intro m h1 h2
    simp [modeExplanation, h1, h2]

/-- Witness for C7 at concrete out-of-range values. -/
theorem C7_unrecognized_values_default_witness :
    implicitLabel 5 = "unknown" ∧
    badge_color "critical" = "#d9d9d9" ∧
    modeExplanation "none" = ModeExplanation.noRewriteProposed :=
  ⟨C7_unrecognized_values_default.1 5 (by decide) (by decide) (by decide),
    C7_unrecognized_values_default.2.1 "critical"
      (by decide) (by decide) (by decide) (by decide),
    C7_unrecognized_values_default.2.2 "none" (by decide) (by decide)⟩

/-- C10: a mitigate response with no "mode" key is treated as mode
"rewrite" (the rewrite-mode explanation is rendered), and the
"not proposed a rewrite" treatment applies exactly when the key is present
with a value other than "rewrite" and "advisory". -/
theorem C10_missing_mode_defaults_rewrite (sev : String)
    (mit : MitigateResponse) :
    (mit.mode = none →
      (renderMitigate sev mit).explanation = ModeExplanation.rewriteMode) ∧
    (∀ v, mit.mode = some v → v ≠ "rewrite" → v ≠ "advisory" →
      (renderMitigate sev mit).explanation =
        ModeExplanation.noRewriteProposed) := by
  constructor
  · intro h
    simp [renderMitigate, h, modeExplanation]
  · intro v hv h1 h2
    simp [renderMitigate, hv, modeExplanation, h1, h2]

/-- Witness for C10: a response with the mode key missing, and one with
mode "none". -/
theorem C10_missing_mode_defaults_rewrite_witness :
    (renderMitigate "none" { mode := none }).explanation =
      ModeExplanation.rewriteMode ∧
    (renderMitigate "none" { mode := some "none" }).explanation =
      ModeExplanation.noRewriteProposed :=
  ⟨(C10_missing_mode_defaults_rewrite "none" { mode := none }).1 rfl,
    (C10_missing_mode_defaults_rewrite "none" { mode := some "none" }).2
      "none" rfl (by decide) (by decide)⟩

/-- C3: when the carried category ordering is non-empty, it is unchanged
by rendering (so with a non-empty session ordering every result in the
loop is rendered against it), the rendered score table has exactly one row
per category of the ordering, in that order, and a category missing from
both of the result's score mappings is shown with score 0; moreover the
loop then renders every result independently against the same ordering. -/
theorem C3_score_table_alignment (ts : List String) (item : InferItem)
    (h : ts ≠ []) :
    (renderItemRows ts item).1 = ts ∧
    (∃ rows, (renderItemRows ts item).2 = some rows ∧
      rows.map Prod.fst = ts ∧
      ∀ p ∈ rows,
        p.1 ∉ dictKeys (item.scoresOrdered.getD []) →
        p.1 ∉ dictKeys (item.scores.getD []) → p.2 = 0) ∧
    (∀ items, renderLoop ts items =
      items.map fun it => (renderItemRows ts it).2) := by
  have hfst : ∀ it : InferItem, (renderItemRows ts it).1 = ts := fun it =>
    renderItemRows_fst ts it h
  refine ⟨hfst item, ?_, ?_⟩
  · cases ts with
    | nil => exact absurd rfl h
    | cons a l =>
        refine ⟨_, renderItemRows_snd_cons a l item, by simp [Function.comp_def], ?_⟩
        intro p hp hnso hnraw
        obtain ⟨cat, hcat, rfl⟩ := List.mem_map.mp hp
        dsimp only at hnso hnraw ⊢
        by_cases hso : (item.scoresOrdered.getD []).isEmpty
        · rw [if_pos hso, dictGetD_map_self (a :: l) cat _ 0 hcat]
          simp [dictGetD, dictGet?_eq_none_of_not_mem _ _ hnraw]
        · rw [if_neg hso]
          simp [dictGetD, dictGet?_eq_none_of_not_mem _ _ hnso]
  · intro items
    induction items with
    | nil => rfl
    | cons it rest ih => simp [renderLoop, hfst it, ih]

/-- Witness for C3 at a two-category ordering and a result whose raw score
mapping lacks the second category. -/
theorem C3_score_table_alignment_witness :
    ∃ rows,
      (renderItemRows ["sexist", "racial"]
          ({ scores := some [("sexist", (1 : Rat))] } : InferItem)).2 =
        some rows ∧
      rows.map Prod.fst = ["sexist", "racial"] ∧
      ∀ p ∈ rows,
        p.1 ∉ dictKeys
          (({ scores := some [("sexist", (1 : Rat))] } : InferItem).scoresOrdered.getD []) →
        p.1 ∉ dictKeys
          (({ scores := some [("sexist", (1 : Rat))] } : InferItem).scores.getD []) →
        p.2 = 0 :=
  (C3_score_table_alignment ["sexist", "racial"]
    { scores := some [("sexist", (1 : Rat))] } (by decide)).2.1

/-- C8 counterexample: with an empty session ordering and two results
whose raw score mappings have different keys, the second result is
rendered against the ordering carried over from the first result, not
against its own raw score keys (which are ["racial"]). -/
theorem C8_empty_order_counterexample :
    renderLoop []
        [{ scores := some [("sexist", (1 : Rat))] },
          { scores := some [("racial", (1 : Rat))] }] =
      [some [("sexist", 1)], some [("sexist", 0)]] ∧
    dictKeys
        (({ scores := some [("racial", (1 : Rat))] } : InferItem).scores.getD []) =
      ["racial"] ∧
    (["sexist"] : List String) ≠ ["racial"] := by
  refine ⟨by decide, rfl, by decide⟩

/-- C8 amended: when the ordering carried into a result's rendering is
empty (in particular, for the first rendered result when the session
ordering is empty), the ordering used for that result's score table is
derived from the keys of that result's raw score mapping; the derived
ordering is then carried forward to subsequent results. -/
theorem C8_empty_order_fallback (item : InferItem) :
    (renderItemRows [] item).1 = dictKeys (item.scores.getD []) ∧
    (∀ rows, (renderItemRows [] item).2 = some rows →
      rows.map Prod.fst = dictKeys (item.scores.getD [])) := by
  constructor
  · rfl
  · intro rows hrows
    rw [renderItemRows_nil] at hrows
    by_cases hk : (dictKeys (item.scores.getD [])).isEmpty
    · rw [if_pos hk] at hrows
      exact absurd hrows (by simp)
    · rw [if_neg hk] at hrows
      injection hrows with h2
      subst h2
      simp [Function.comp_def]

/-- Witness for C8 amended, at a single result with raw scores keyed by
"racial" and an empty carried ordering. -/
theorem C8_empty_order_fallback_witness :
    (renderItemRows [] ({ scores := some [("racial", (1 : Rat))] } : InferItem)).1 =
      dictKeys
        (({ scores := some [("racial", (1 : Rat))] } : InferItem).scores.getD []) ∧
    ([("racial", (1 : Rat))].map Prod.fst =
      dictKeys
        (({ scores := some [("racial", (1 : Rat))] } : InferItem).scores.getD [])) :=
  ⟨(C8_empty_order_fallback { scores := some [("racial", (1 : Rat))] }).1,
    (C8_empty_order_fallback { scores := some [("racial", (1 : Rat))] }).2
      [("racial", (1 : Rat))] (by decide)⟩

/-- C5 counterexample: a mitigate response with mode "none" but a
non-empty rewritten field gets the "not proposed a rewrite" message AND a
rewritten-text code block, contradicting the claim that no code block is
presented for mode "none". -/
theorem C5_mode_none_counterexample :
    (renderMitigate "low"
        { mode := some "none", severity := some "low",
          advisory := some "Consider softer phrasing.",
          rewritten := some "Some drivers make mistakes." }).explanation =
      ModeExplanation.noRewriteProposed ∧
    (renderMitigate "low"
        { mode := some "none", severity := some "low",
          advisory := some "Consider softer phrasing.",
          rewritten := some "Some drivers make mistakes." }).rewrittenBlock =
      some "Some drivers make mistakes." := by
  refine ⟨by decide, by decide⟩

/-- C5 amended: for every mitigate response with mode "none" the UI shows
the "not proposed a rewrite" explanatory message, and the rewritten-text
code block is absent precisely when the response's rewritten text is empty
or absent (the block depends only on the rewritten field, not on the
mode). -/
theorem C5_mode_none_rendering (sev : String) (mit : MitigateResponse)
    (h : mit.mode = some "none") :
    (renderMitigate sev mit).explanation = ModeExplanation.noRewriteProposed ∧
    ((renderMitigate sev mit).rewrittenBlock = none ↔
      optStrTruthy mit.rewritten = false) := by
  obtain ⟨mo, sv, adv, rwr⟩ := mit
  simp only at h
  subst h
  constructor
  · simp [renderMitigate, modeExplanation]
  · rcases rwr with _ | r
    · simp [renderMitigate, optStrTruthy]
    · by_cases hr : r = "" <;>
        simp [renderMitigate, optStrTruthy, strTruthy, hr]

/-- Witness for C5 amended at a minimal mode-"none" response. -/
theorem C5_mode_none_rendering_witness :
    (renderMitigate "low" { mode := some "none" }).explanation =
      ModeExplanation.noRewriteProposed ∧
    ((renderMitigate "low" { mode := some "none" }).rewrittenBlock = none ↔
      optStrTruthy ({ mode := some "none" } : MitigateResponse).rewritten =
        false) :=
  C5_mode_none_rendering "low" { mode := some "none" } rfl

/-- C6 counterexample: when the session already holds a device from an
earlier successful infer call, a failed /health call shows the sidebar
failure message but the performance indicator still shows the retained
device mode, not the Unknown state. -/
theorem C6_health_failure_counterexample :
    (renderPage { device := some "cuda" }
        (Except.error "connection refused")).2.sidebar.statusOk = false ∧
    (renderPage { device := some "cuda" }
        (Except.error "connection refused")).2.perf =
      PerfIndicator.deviceMode "Ultra-fast GPU Mode" "#52c41a" ∧
    (renderPage { device := some "cuda" }
        (Except.error "connection refused")).2.perf ≠
      PerfIndicator.unknown := by
  refine ⟨rfl, by decide, by decide⟩

/-- C6 amended: whenever the /health call fails, the sidebar shows a
failure message and renders no device badge, session state is left
unchanged, and the main analyze flow remains usable; the performance
indicator shows the Unknown state exactly when the session retains no
device from an earlier successful infer or health call (both stored
device fields unset or empty). -/
theorem C6_health_failure_rendering (st : SessionState) (e : String) :
    (renderPage st (Except.error e)).1 = st ∧
    (renderPage st (Except.error e)).2.sidebar.statusOk = false ∧
    (renderPage st (Except.error e)).2.sidebar.deviceBadge = none ∧
    (renderPage st (Except.error e)).2.analyzeAvailable = true ∧
    ((renderPage st (Except.error e)).2.perf = PerfIndicator.unknown ↔
      optStrTruthy st.device = false ∧ optStrTruthy st.backendDevice = false) := by
  refine ⟨rfl, rfl, rfl, rfl, ?_⟩
  show perfIndicator st.device st.backendDevice = PerfIndicator.unknown ↔
    optStrTruthy st.device = false ∧ optStrTruthy st.backendDevice = false
  exact perfIndicator_eq_unknown_iff st.device st.backendDevice

end SojenDashboard
